import Mathlib

/-!
Shallow embedding of `src/apps/LoRaMac/common/LmHandler/packages/LmhpRemoteMcastSetup.c`
(the LoRa-Alliance remote multicast setup package of a LoRaMac-node fork).

Machine integers are modelled as `Nat`, reduced modulo 2^8 or 2^32 exactly where
the C types (`uint8_t`, `uint32_t`) force a wrap; signed 32-bit values are read
through `toInt32`.  The external collaborators (MAC layer, system time) are an
oracle record `Env`; the MAC calls issued while a command executes are also
recorded in a trace so theorems can speak about the arguments that were passed.
C bit-fields are mapped to bits following the little-endian allocation rule of
the target ABI (the first declared field occupies the least significant bits),
which is also the layout the specification documents for the GroupStatus
answer byte.
-/

/-- A `uint8_t` read from a buffer: `Buffer[i]` (entries are bytes by type). -/
def byteAt (buf : List Nat) (i : Nat) : Nat := buf.getD i 0 % 256

/-- 32-bit little-endian decode, mirroring the C sums of
`( Buffer[cmdIndex++] << k ) & mask` terms. -/
def decodeU32LE (buf : List Nat) (i : Nat) : Nat :=
  byteAt buf i + (byteAt buf (i+1) <<< 8) + (byteAt buf (i+2) <<< 16) +
    (byteAt buf (i+3) <<< 24)

/-- The `int32_t` (two's-complement) view of a 32-bit value. -/
def toInt32 (n : Nat) : Int :=
  if n % 4294967296 < 2147483648 then (n % 4294967296 : Int)
  else (n % 4294967296 : Int) - 4294967296

/-- `#define REMOTE_MCAST_SETUP_PORT 200` -/
def REMOTE_MCAST_SETUP_PORT : Nat := 200

/-- `#define REMOTE_MCAST_SETUP_ID 2` -/
def REMOTE_MCAST_SETUP_ID : Nat := 2

/-- `#define REMOTE_MCAST_SETUP_VERSION 1` -/
def REMOTE_MCAST_SETUP_VERSION : Nat := 1

/-- Number of multicast contexts (`LORAMAC_MAX_MC_CTX`): 4 group slots. -/
def LORAMAC_MAX_MC_CTX : Nat := 4

/-- Modelled from the spec: the fixed Unix-to-GPS epoch offset constant
(`UNIX_GPS_EPOCH_OFFSET`).  Its definition lives in the repository's
`systime.h`, which is not under `src/`; the spec only requires it to be a
fixed constant, and no claim depends on its concrete value. -/
def UNIX_GPS_EPOCH_OFFSET : Nat := 315964800

inductive DeviceClass
  | CLASS_A
  | CLASS_B
  | CLASS_C
deriving DecidableEq

/-- `SessionState_t` (the source spells the first constructor `SESSION_STOPED`). -/
inductive SessionState_t
  | SESSION_STOPED
  | SESSION_STARTED
deriving DecidableEq

/-- `McGroupData_t`.  The anonymous `IdHeader` union is represented by its
byte `Value`; the 2-bit field `IdHeader.Fields.McGroupId` is `Value &&& 3`. -/
structure McGroupData_t where
  IdHeaderValue : Nat
  McAddr : Nat
  McKeyEncrypted : List Nat
  McFCountMin : Nat
  McFCountMax : Nat
deriving DecidableEq

/-- The `ClassC` arm of `McRxParams_t` (the only arm this module uses). -/
structure McRxParamsClassC_t where
  Frequency : Nat
  Datarate : Nat
deriving DecidableEq

/-- `McSessionData_t`. -/
structure McSessionData_t where
  McGroupData : McGroupData_t
  SessionState : SessionState_t
  SessionTime : Nat
  SessionTimeout : Nat
  RxParams : McRxParamsClassC_t
deriving DecidableEq

/-- The global array `McSessionData[LORAMAC_MAX_MC_CTX]` (4 slots). -/
structure McSessionTable where
  s0 : McSessionData_t
  s1 : McSessionData_t
  s2 : McSessionData_t
  s3 : McSessionData_t
deriving DecidableEq

/-- Array read `McSessionData[i]`.  Every call site guarantees `i < 4`
(either by the `id >= LORAMAC_MAX_MC_CTX` guard or by masking with `& 0x03`),
so the fallback arm is never reached with the index semantics of the source. -/
def McSessionTable.get (t : McSessionTable) (i : Nat) : McSessionData_t :=
  match i with
  | 0 => t.s0
  | 1 => t.s1
  | 2 => t.s2
  | _ => t.s3

/-- Array write `McSessionData[i] = r`; call sites guarantee `i < 4`. -/
def McSessionTable.set (t : McSessionTable) (i : Nat) (r : McSessionData_t) :
    McSessionTable :=
  match i with
  | 0 => { t with s0 := r }
  | 1 => { t with s1 := r }
  | 2 => { t with s2 := r }
  | _ => { t with s3 := r }

/-- A one-shot timer (`TimerEvent_t`) reduced to the facts this module
observes: the programmed value in milliseconds and whether it is running.
`TimerSetValue` writes `value`, `TimerStart`/`TimerStop` toggle `running`. -/
structure TimerEvent_t where
  value : Nat
  running : Bool
deriving DecidableEq

/-- The mutable state this module owns: the session table and the two
session-scheduler timers. -/
structure ModuleState where
  McSessionData : McSessionTable
  SessionStartTimer : TimerEvent_t
  SessionStopTimer : TimerEvent_t
deriving DecidableEq

/-- One entry of the MAC's `MulticastChannelList`, as read back through
`MIB_NVM_CTXS` by the GroupStatus handler (`ChannelParams.GroupID` and
`ChannelParams.Address`). -/
structure MulticastChannelParams_t where
  GroupID : Nat
  Address : Nat
deriving DecidableEq

/-- `McChannelParams_t` as assembled by the GroupSetup handler and passed to
`LoRaMacMcChannelSetup`.  `Class` and the rx-params pair are placeholders the
source must initialize but the MAC ignores for multicast channel setup. -/
structure McChannelParams_t where
  Class : DeviceClass
  IsEnabled : Bool
  GroupID : Nat
  Address : Nat
  McKeyE : List Nat
  FCountMin : Nat
  FCountMax : Nat
  RxFrequency : Nat
  RxDatarate : Nat
deriving DecidableEq

/-- Trace of the calls this module makes into the MAC layer. -/
inductive McCall
  | channelSetup (p : McChannelParams_t)
  | channelDelete (id : Nat)
  | setupRxParams (id : Nat) (p : McRxParamsClassC_t)
deriving DecidableEq

/-- Oracle for the external collaborators: the MAC's multicast channel list
(read by GroupStatus), the results of the three MAC configuration calls, and
the current system time in seconds (`SysTimeGet().Seconds`, GPS epoch).
`SetupRxParams` returns the `LoRaMacStatus == LORAMAC_STATUS_OK` flag together
with the `status` byte the MAC writes through the out-parameter. -/
structure Env where
  MulticastChannelList : Nat → MulticastChannelParams_t
  McChannelSetupOk : McChannelParams_t → Bool
  McChannelDeleteOk : Nat → Bool
  SetupRxParams : Nat → McRxParamsClassC_t → Bool × Nat
  SysTimeSeconds : Nat

/-- Result of dispatching one command: the new module state, the answer bytes
appended to the outbound buffer, the MAC calls issued, and the number of
payload bytes consumed after the opcode byte. -/
structure StepResult where
  state : ModuleState
  ans : List Nat
  calls : List McCall
  payloadLen : Nat
deriving DecidableEq

/-- Bit `k` of a byte. -/
def bitOf (b k : Nat) : Nat := (b >>> k) &&& 1

/-- The `(GroupID, Address)` pair the GroupStatus handler emits for slot `k`:
the group identifier byte followed by the 4-byte little-endian address. -/
def statusPair (env : Env) (k : Nat) : List Nat :=
  [(env.MulticastChannelList k).GroupID % 256,
   ((env.MulticastChannelList k).Address >>> 0) &&& 0xFF,
   ((env.MulticastChannelList k).Address >>> 8) &&& 0xFF,
   ((env.MulticastChannelList k).Address >>> 16) &&& 0xFF,
   ((env.MulticastChannelList k).Address >>> 24) &&& 0xFF]

/-- `REMOTE_MCAST_SETUP_MC_GROUP_STATUS_REQ` (opcode 0x01).  C bit-field
layout on the little-endian target: in `TMcReqGroupMask` the first declared
field `ReqGroupMask4` is bit 0 of the request byte, ..., `ReqGroupMask1`
is bit 3; likewise in `TMcGroupStatusAns` the flag `AnsGroupMaskN`
(guarding `MulticastChannelList[N-1]`) sits at bit `4-N`, `NbTotalGroups`
occupies bits 4..6 and `rfu` bit 7.  A mask flag is cleared when the slot's
address is the 0 sentinel; the configured slots among the requested ones are
then emitted in ascending slot order. -/
def handleGroupStatus (env : Env) (buf : List Nat) (i : Nat) (st : ModuleState) :
    StepResult :=
  let req := byteAt buf (i+1)
  let a1 := if (env.MulticastChannelList 0).Address = 0 then 0 else bitOf req 3
  let a2 := if (env.MulticastChannelList 1).Address = 0 then 0 else bitOf req 2
  let a3 := if (env.MulticastChannelList 2).Address = 0 then 0 else bitOf req 1
  let a4 := if (env.MulticastChannelList 3).Address = 0 then 0 else bitOf req 0
  let statusAns := a4 + (a3 <<< 1) + (a2 <<< 2) + (a1 <<< 3) +
    (LORAMAC_MAX_MC_CTX <<< 4)
  let ans := [0x01, statusAns]
    ++ (if a1 = 1 then statusPair env 0 else [])
    ++ (if a2 = 1 then statusPair env 1 else [])
    ++ (if a3 = 1 then statusPair env 2 else [])
    ++ (if a4 = 1 then statusPair env 3 else [])
  ⟨st, ans, [], 1⟩

/-- GroupSetup field: `McAddr`, 4-byte little-endian at payload offset 1. -/
def groupSetupAddr (buf : List Nat) (i : Nat) : Nat := decodeU32LE buf (i+2)

/-- GroupSetup field: the 16 key bytes at payload offset 5. -/
def groupSetupKey (buf : List Nat) (i : Nat) : List Nat :=
  (List.range 16).map (fun k => byteAt buf (i+6+k))

/-- GroupSetup field: `McFCountMin`, 4-byte little-endian. -/
def groupSetupFCountMin (buf : List Nat) (i : Nat) : Nat := decodeU32LE buf (i+22)

/-- GroupSetup field: `McFCountMax`, 4-byte little-endian. -/
def groupSetupFCountMax (buf : List Nat) (i : Nat) : Nat := decodeU32LE buf (i+26)

/-- `REMOTE_MCAST_SETUP_MC_GROUP_SETUP_REQ` (opcode 0x02).  Note the
`if( id >= LORAMAC_MAX_MC_CTX ) break;` in the source leaves the `switch`
after having consumed only the id byte, so for `id >= 4` the remaining 28
payload bytes are re-examined as opcodes by the surrounding `while` loop.
For `id < 4` the decoded fields are stored into the session table before
`LoRaMacMcChannelSetup` is called and are kept whatever the MAC answers. -/
def handleGroupSetup (env : Env) (buf : List Nat) (i : Nat) (st : ModuleState) :
    StepResult :=
  let id := byteAt buf (i+1)
  if 4 ≤ id then
    ⟨st, [], [], 1⟩
  else
    let rec0 := st.McSessionData.get id
    let group : McGroupData_t :=
      { IdHeaderValue := id
        McAddr := groupSetupAddr buf i
        McKeyEncrypted := groupSetupKey buf i
        McFCountMin := groupSetupFCountMin buf i
        McFCountMax := groupSetupFCountMax buf i }
    let st1 := { st with
      McSessionData := st.McSessionData.set id { rec0 with McGroupData := group } }
    let channel : McChannelParams_t :=
      { Class := DeviceClass.CLASS_C
        IsEnabled := true
        GroupID := id &&& 3
        Address := group.McAddr
        McKeyE := group.McKeyEncrypted
        FCountMin := group.McFCountMin
        FCountMax := group.McFCountMax
        RxFrequency := 0
        RxDatarate := 0 }
    let idError := if env.McChannelSetupOk channel then 0 else 1
    ⟨st1, [0x02, (idError <<< 2) ||| (id &&& 3)], [McCall.channelSetup channel], 29⟩

/-- `REMOTE_MCAST_SETUP_MC_GROUP_DELETE_REQ` (opcode 0x03): the low 2 bits of
the id byte select the group; the `0x04` McGroupUndefined bit is set when
`LoRaMacMcChannelDelete` does not report `LORAMAC_STATUS_OK`. -/
def handleGroupDelete (env : Env) (buf : List Nat) (i : Nat) (st : ModuleState) :
    StepResult :=
  let id := byteAt buf (i+1) &&& 0x03
  let status := if env.McChannelDeleteOk id then id else id ||| 0x04
  ⟨st, [0x03, status], [McCall.channelDelete id], 1⟩

/-- ClassCSession field: group slot, low 2 bits of the id byte. -/
def classCId (buf : List Nat) (i : Nat) : Nat := byteAt buf (i+1) &&& 0x03

/-- ClassCSession field: stored `SessionTime` — the 4-byte little-endian
session time plus the Unix-to-GPS epoch offset, wrapped to `uint32_t`. -/
def classCSessionTime (buf : List Nat) (i : Nat) : Nat :=
  (decodeU32LE buf (i+2) + UNIX_GPS_EPOCH_OFFSET) % 4294967296

/-- ClassCSession field: `SessionTimeout`, low 4 bits of the timeout byte. -/
def classCTimeout (buf : List Nat) (i : Nat) : Nat := byteAt buf (i+6) &&& 0x0F

/-- ClassCSession field: rx frequency — 3 bytes little-endian, scaled by 100.
The product is below 2^32, so no `uint32_t` wrap can occur. -/
def classCFrequency (buf : List Nat) (i : Nat) : Nat :=
  (byteAt buf (i+7) ||| (byteAt buf (i+8) <<< 8) ||| (byteAt buf (i+9) <<< 16)) * 100

/-- ClassCSession field: rx datarate byte. -/
def classCDatarate (buf : List Nat) (i : Nat) : Nat := byteAt buf (i+10)

/-- ClassCSession fields: the stored `RxParams.ClassC` pair. -/
def classCRxParams (buf : List Nat) (i : Nat) : McRxParamsClassC_t :=
  ⟨classCFrequency buf i, classCDatarate buf i⟩

/-- `int32_t timeToSessionStart = McSessionData[id].SessionTime - curTime.Seconds`:
`uint32_t` subtraction of the current time from the just-stored session time,
read as a signed 32-bit value. -/
def classCTimeToStart (env : Env) (buf : List Nat) (i : Nat) : Int :=
  toInt32 ((classCSessionTime buf i + 4294967296 - env.SysTimeSeconds % 4294967296)
    % 4294967296)

/-- `REMOTE_MCAST_SETUP_MC_GROUP_CLASS_C_SESSION_REQ` (opcode 0x04).  The
decoded fields are stored into slot `id & 0x03` first; the stored rx-params
are then handed to `LoRaMacMcChannelSetupRxParams`.  On MAC success with a
positive time-to-start the start timer is programmed for that many seconds
(`TimerSetValue` takes milliseconds, wrapped to `uint32_t`) and started, and
the status byte plus the 3-byte little-endian time-to-start are appended;
with a non-positive time-to-start the `0x10` bit is OR-ed into the status and
only the status byte follows the answer opcode; on MAC failure the returned
status byte alone follows the opcode.  The store is never rolled back. -/
def handleClassCSession (env : Env) (buf : List Nat) (i : Nat) (st : ModuleState) :
    StepResult :=
  let id := classCId buf i
  let rec0 := st.McSessionData.get id
  let rx := classCRxParams buf i
  let rec1 := { rec0 with
    SessionTime := classCSessionTime buf i
    SessionTimeout := classCTimeout buf i
    RxParams := rx }
  let st1 := { st with McSessionData := st.McSessionData.set id rec1 }
  let res := env.SetupRxParams id rx
  let status := res.2 % 256
  let call := McCall.setupRxParams id rx
  if res.1 then
    if 0 < classCTimeToStart env buf i then
      let ttsN := (classCTimeToStart env buf i).toNat
      let st2 := { st1 with SessionStartTimer := ⟨ttsN * 1000 % 4294967296, true⟩ }
      ⟨st2, [0x04, status, ttsN &&& 0xFF, (ttsN >>> 8) &&& 0xFF,
        (ttsN >>> 16) &&& 0xFF], [call], 10⟩
    else
      ⟨st1, [0x04, status ||| 0x10], [call], 10⟩
  else
    ⟨st1, [0x04, status], [call], 10⟩

/-- One iteration of the dispatch `switch` in
`LmhpRemoteMcastSetupOnMcpsIndication`: reads the opcode byte at `i` and runs
the matching case.  `REMOTE_MCAST_SETUP_MC_GROUP_CLASS_B_SESSION_REQ` (0x05,
a TODO in the source) and unknown opcodes consume only the opcode byte and
append nothing. -/
def processOneCmd (env : Env) (buf : List Nat) (i : Nat) (st : ModuleState) :
    StepResult :=
  let opcode := byteAt buf i
  if opcode = 0x00 then
    ⟨st, [0x00, REMOTE_MCAST_SETUP_ID, REMOTE_MCAST_SETUP_VERSION], [], 0⟩
  else if opcode = 0x01 then
    handleGroupStatus env buf i st
  else if opcode = 0x02 then
    handleGroupSetup env buf i st
  else if opcode = 0x03 then
    handleGroupDelete env buf i st
  else if opcode = 0x04 then
    handleClassCSession env buf i st
  else
    ⟨st, [], [], 0⟩

/-- The `while( cmdIndex < mcpsIndication->BufferSize )` loop.  The first
argument is recursion fuel: every iteration consumes at least the opcode
byte, so `buf.length` units of fuel always suffice to reach `i ≥ buf.length`,
and `LmhpRemoteMcastSetupOnMcpsIndication` supplies exactly that much. -/
def cmdLoop (env : Env) (buf : List Nat) :
    Nat → Nat → ModuleState → ModuleState × List Nat × List McCall
  | 0, _, st => (st, [], [])
  | fuel+1, i, st =>
    if i < buf.length then
      let r := processOneCmd env buf i st
      let rest := cmdLoop env buf fuel (i + 1 + r.payloadLen) r.state
      (rest.1, r.ans ++ rest.2.1, r.calls ++ rest.2.2)
    else
      (st, [], [])

/-- `LmHandlerAppData_t` as filled in after the loop. -/
structure LmHandlerAppData_t where
  Buffer : List Nat
  Port : Nat
deriving DecidableEq

inductive LmHandlerMsgTypes_t
  | LORAMAC_HANDLER_UNCONFIRMED_MSG
  | LORAMAC_HANDLER_CONFIRMED_MSG
deriving DecidableEq

/-- Result of one MCPS indication: the new module state, the single
`OnSendRequest` transmission (if any answer bytes were produced), and the
trace of MAC calls. -/
structure IndicationResult where
  state : ModuleState
  send : Option (LmHandlerAppData_t × LmHandlerMsgTypes_t)
  calls : List McCall
deriving DecidableEq

/-- `LmhpRemoteMcastSetupOnMcpsIndication`: run the dispatch loop over the
inbound buffer from offset 0 and, if the outbound index is non-zero, hand the
accumulated answers to `OnSendRequest` as one unconfirmed message on port
`REMOTE_MCAST_SETUP_PORT`. -/
def LmhpRemoteMcastSetupOnMcpsIndication (env : Env) (buf : List Nat)
    (st : ModuleState) : IndicationResult :=
  let r := cmdLoop env buf buf.length 0 st
  { state := r.1
    send := if r.2.1 ≠ [] then
        some (⟨r.2.1, REMOTE_MCAST_SETUP_PORT⟩,
          LmHandlerMsgTypes_t.LORAMAC_HANDLER_UNCONFIRMED_MSG)
      else none
    calls := r.2.2 }

/-- `OnSessionStartTimer`: stop the start timer, request a switch to class C,
program the stop timer to `( 1 << McSessionData[0].SessionTimeout ) * 1000`
milliseconds (always slot 0's exponent) and start it.  The returned list is
the sequence of `LmHandlerRequestClass` calls made. -/
def OnSessionStartTimer (st : ModuleState) : ModuleState × List DeviceClass :=
  let st1 := { st with
    SessionStartTimer := { st.SessionStartTimer with running := false } }
  let st2 := { st1 with SessionStopTimer :=
    ⟨(1 <<< (st.McSessionData.get 0).SessionTimeout) * 1000 % 4294967296, true⟩ }
  (st2, [DeviceClass.CLASS_C])

/-- `OnSessionStopTimer`: stop the stop timer and request class A back. -/
def OnSessionStopTimer (st : ModuleState) : ModuleState × List DeviceClass :=
  ({ st with SessionStopTimer := { st.SessionStopTimer with running := false } },
    [DeviceClass.CLASS_A])

/-- Zero-initialized session record (the table is a zero-initialized global
in the source; `SESSION_STOPED` is the zero enumerator). -/
def initialSession : McSessionData_t :=
  { McGroupData :=
      { IdHeaderValue := 0
        McAddr := 0
        McKeyEncrypted := List.replicate 16 0
        McFCountMin := 0
        McFCountMax := 0 }
    SessionState := SessionState_t.SESSION_STOPED
    SessionTime := 0
    SessionTimeout := 0
    RxParams := ⟨0, 0⟩ }

/-- Module state right after `LmhpRemoteMcastSetupInit`: zeroed session table
and both timers initialized but not running. -/
def initialState : ModuleState :=
  { McSessionData := ⟨initialSession, initialSession, initialSession, initialSession⟩
    SessionStartTimer := ⟨0, false⟩
    SessionStopTimer := ⟨0, false⟩ }

/-- Group Store query of spec section 4.1: a slot is configured iff its
stored multicast address differs from the 0 sentinel. -/
def isConfigured (st : ModuleState) (slot : Nat) : Prop :=
  (st.McSessionData.get slot).McGroupData.McAddr ≠ 0

/-! ### Helper lemmas and concrete scenario data -/

theorem or_and_absorb (a b : Nat) : (a ||| b) &&& b = b := by
  apply Nat.eq_of_testBit_eq
  intro k
  rcases h1 : a.testBit k <;> rcases h2 : b.testBit k <;>
    simp [Nat.testBit_and, Nat.testBit_or, h1, h2]

theorem McSessionTable.get_set_self (t : McSessionTable) (i : Nat)
    (r : McSessionData_t) (h : i < 4) : (t.set i r).get i = r := by
  interval_cases i <;> rfl

theorem McSessionTable.get_set_SessionState (t : McSessionTable) (i k : Nat)
    (r : McSessionData_t) (h : r.SessionState = (t.get i).SessionState) :
    ((t.set i r).get k).SessionState = (t.get k).SessionState := by
  rcases i with _ | _ | _ | i <;> rcases k with _ | _ | _ | k <;>
    simp_all [McSessionTable.set, McSessionTable.get]

theorem classCId_lt_four (buf : List Nat) (i : Nat) : classCId buf i < 4 := by
  have h : byteAt buf (i+1) &&& 3 ≤ 3 := Nat.and_le_right
  unfold classCId
  omega

/-- An environment in which slots 0 and 2 of the MAC's multicast channel list
are configured (non-zero addresses) and slots 1 and 3 carry the 0 sentinel;
all MAC calls succeed. -/
def C1env : Env :=
  { MulticastChannelList := fun k =>
      if k = 0 then ⟨0, 0x11223344⟩
      else if k = 2 then ⟨2, 0xAABBCCDD⟩
      else ⟨k, 0⟩
    McChannelSetupOk := fun _ => true
    McChannelDeleteOk := fun _ => true
    SetupRxParams := fun _ _ => (true, 0)
    SysTimeSeconds := 0 }

/-- Environment with all MAC calls succeeding, rx-params status byte 0, and
current GPS time 0 (used for the C3/C4/C7 scenarios). -/
def env7 : Env :=
  { MulticastChannelList := fun k => ⟨k, 0⟩
    McChannelSetupOk := fun _ => true
    McChannelDeleteOk := fun _ => true
    SetupRxParams := fun _ _ => (true, 0)
    SysTimeSeconds := 0 }

/-- A complete 30-byte GroupSetup command addressed to the reserved id 4,
with an all-zero payload. -/
def bufC3 : List Nat := [0x02, 0x04] ++ List.replicate 28 0

/-- Two back-to-back ClassCSession commands: one for group 0 with timeout
exponent 5, then one for group 1 with timeout exponent 3. -/
def buf7 : List Nat :=
  [0x04, 0x00, 0, 0, 0, 0, 0x05, 0x01, 0, 0, 0x05] ++
  [0x04, 0x01, 0, 0, 0, 0, 0x03, 0x01, 0, 0, 0x05]

/-! ### Claim C8 -/

/-- Claim C8: processing the inbound buffer `[0x00]` (a single PackageVersion
request) produces exactly the outbound buffer `[0x00, 0x02, 0x01]` (answer
opcode, packageId 2, version 1), handed to the send callback as one
unconfirmed message on the package port — for any environment and state. -/
theorem C8_packageVersion (env : Env) (st : ModuleState) :
    (LmhpRemoteMcastSetupOnMcpsIndication env [0x00] st).send =
      some (⟨[0x00, 0x02, 0x01], 200⟩,
        LmHandlerMsgTypes_t.LORAMAC_HANDLER_UNCONFIRMED_MSG) := by
  rfl

/-! ### Claim C3 -/

/-- Claim C3 is violated by the code: for the 30-byte inbound buffer holding
one complete GroupSetup command with id 4 (`[0x02, 0x04]` followed by 28 zero
payload bytes), the `break` in the id guard only exits the `switch` after two
consumed bytes, so the 28 payload bytes are re-parsed as opcodes; here each
zero byte is taken as a PackageVersion request and 28 three-byte answers (84
bytes) are emitted, although the Group Store is indeed left unchanged. -/
theorem C3_reparsesPayload :
    (LmhpRemoteMcastSetupOnMcpsIndication env7 bufC3 initialState).send =
      some (⟨(List.replicate 28 [0x00, 0x02, 0x01]).flatten, 200⟩,
        LmHandlerMsgTypes_t.LORAMAC_HANDLER_UNCONFIRMED_MSG) ∧
    (LmhpRemoteMcastSetupOnMcpsIndication env7 bufC3 initialState).state =
      initialState := by
  decide

/-! ### Claim C6 -/

/-- Claim C6 is false at a concrete input: firing the session start timer on
the freshly initialized module (slot 0's record is in the Stopped state) does
not move the record to Started — the timer callbacks never write the
`SessionState` field. -/
theorem C6_counterexample :
    (initialState.McSessionData.get 0).SessionState =
      SessionState_t.SESSION_STOPED ∧
    ((OnSessionStartTimer initialState).1.McSessionData.get 0).SessionState ≠
      SessionState_t.SESSION_STARTED := by
  decide

/-- Claim C6 amended: a session record is created in `Stopped` (the
zero-initialized value), but its `state` field never transitions — neither
timer callback nor any command dispatch ever writes `SessionState`, so the
field keeps its initial `Stopped` value forever. -/
theorem C6_amended (st : ModuleState) (env : Env) (buf : List Nat) (i : Nat) :
    (OnSessionStartTimer st).1.McSessionData = st.McSessionData ∧
    (OnSessionStopTimer st).1.McSessionData = st.McSessionData ∧
    (∀ k, ((processOneCmd env buf i st).state.McSessionData.get k).SessionState =
      (st.McSessionData.get k).SessionState) ∧
    (initialState.McSessionData.get 0).SessionState =
      SessionState_t.SESSION_STOPED := by
  refine ⟨rfl, rfl, ?_, rfl⟩
  intro k
  simp only [processOneCmd]
  split_ifs with h0 h1 h2 h3 h4
  · rfl
  · rfl
  · simp only [handleGroupSetup]
    split_ifs <;>
      first
        | rfl
        | exact McSessionTable.get_set_SessionState _ _ _ _ rfl
  · rfl
  · simp only [handleClassCSession]
    split_ifs <;> exact McSessionTable.get_set_SessionState _ _ _ _ rfl
  · rfl

/-! ### Claim C7 -/

/-- Claim C7 is false at a concrete input: after `buf7` the start timer was
(re-)armed by the ClassCSession command for group 1, whose stored timeout
exponent is 3, yet when the start timer fires the stop timer is programmed
with `(1 << McSessionData[0].SessionTimeout) * 1000 = 32000` ms (slot 0's
exponent 5, i.e. 2^5 seconds), not the arming command's `2^3` seconds. -/
theorem C7_counterexample :
    (LmhpRemoteMcastSetupOnMcpsIndication env7 buf7 initialState).state.SessionStartTimer.running = true ∧
    ((LmhpRemoteMcastSetupOnMcpsIndication env7 buf7 initialState).state.McSessionData.get 1).SessionTimeout = 3 ∧
    (OnSessionStartTimer
      (LmhpRemoteMcastSetupOnMcpsIndication env7 buf7 initialState).state).1.SessionStopTimer =
      ⟨32000, true⟩ ∧
    (32000 : Nat) ≠ (1 <<< 3) * 1000 := by
  decide

/-- Claim C7 amended: when the start timer fires the module requests a switch
to class C and immediately arms the stop timer for `2^k` seconds (as
`(1 <<< k) * 1000` ms, wrapped to `uint32_t`) where `k` is the timeout
exponent stored in slot 0 — regardless of which group's ClassCSession command
armed the timer; when the stop timer fires the module requests class A. -/
theorem C7_amended (st : ModuleState) :
    (OnSessionStartTimer st).2 = [DeviceClass.CLASS_C] ∧
    (OnSessionStartTimer st).1.SessionStopTimer =
      ⟨(1 <<< (st.McSessionData.get 0).SessionTimeout) * 1000 % 4294967296, true⟩ ∧
    (OnSessionStartTimer st).1.SessionStartTimer.running = false ∧
    (OnSessionStopTimer st).2 = [DeviceClass.CLASS_A] ∧
    (OnSessionStopTimer st).1.SessionStopTimer.running = false := by
  exact ⟨rfl, rfl, rfl, rfl, rfl⟩

/-! ### Claim C1 -/

/-- Claim C1 is false at a concrete input: with groups 0 and 2 configured and
1 and 3 unconfigured, a GroupStatus request with mask `1111` answers with the
mask byte `0x4A` — low nibble `1010` (bits 1 and 3), because the answer flag
of group `i` sits at bit `3 - i` of the byte — not `0101` (bits 0 and 2).
The two (groupId, address) pairs do follow in ascending slot order. -/
theorem C1_counterexample :
    (LmhpRemoteMcastSetupOnMcpsIndication C1env [0x01, 0x0F] initialState).send =
      some (⟨[0x01, 0x4A, 0x00, 0x44, 0x33, 0x22, 0x11, 0x02, 0xDD, 0xCC, 0xBB, 0xAA], 200⟩,
        LmHandlerMsgTypes_t.LORAMAC_HANDLER_UNCONFIRMED_MSG) ∧
    0x4A &&& 0x0F = 0x0A ∧ (0x0A : Nat) ≠ 0x05 := by
  decide

/-- Claim C1 amended: if groups 0 and 2 are configured (non-zero addresses)
and groups 1 and 3 are unconfigured, a GroupStatus request with mask `1111`
produces the answer byte `0x4A`, whose 4-bit answer mask is `1010` — bits 1
and 3 set, since group `i`'s flag occupies bit `3 - i` of the byte and the
upper bits carry `NbTotalGroups = 4` — followed by exactly two
(groupId, address) pairs in ascending slot order (slot 0 then slot 2). -/
theorem C1_amended (env : Env) (st : ModuleState)
    (h0 : (env.MulticastChannelList 0).Address ≠ 0)
    (h1 : (env.MulticastChannelList 1).Address = 0)
    (h2 : (env.MulticastChannelList 2).Address ≠ 0)
    (h3 : (env.MulticastChannelList 3).Address = 0) :
    (LmhpRemoteMcastSetupOnMcpsIndication env [0x01, 0x0F] st).send =
      some (⟨[0x01, 0x4A] ++ statusPair env 0 ++ statusPair env 2, 200⟩,
        LmHandlerMsgTypes_t.LORAMAC_HANDLER_UNCONFIRMED_MSG) := by
  simp only [LmhpRemoteMcastSetupOnMcpsIndication, cmdLoop, processOneCmd,
    handleGroupStatus, byteAt, bitOf, LORAMAC_MAX_MC_CTX]
  norm_num [h0, h1, h2, h3, REMOTE_MCAST_SETUP_PORT, Nat.shiftRight_eq_div_pow,
    Nat.shiftLeft_eq]
  intro h
  exact absurd h (List.cons_ne_nil _ _)

/-- Witness for `C1_amended` at the concrete environment `C1env`. -/
theorem C1_amended_witness :
    ((C1env.MulticastChannelList 0).Address ≠ 0 ∧
     (C1env.MulticastChannelList 1).Address = 0 ∧
     (C1env.MulticastChannelList 2).Address ≠ 0 ∧
     (C1env.MulticastChannelList 3).Address = 0) ∧
    (LmhpRemoteMcastSetupOnMcpsIndication C1env [0x01, 0x0F] initialState).send =
      some (⟨[0x01, 0x4A] ++ statusPair C1env 0 ++ statusPair C1env 2, 200⟩,
        LmHandlerMsgTypes_t.LORAMAC_HANDLER_UNCONFIRMED_MSG) := by
  refine ⟨⟨by decide, by decide, by decide, by decide⟩, ?_⟩
  exact C1_amended C1env initialState (by decide) (by decide) (by decide) (by decide)

/-! ### Claim C9 -/

/-- Claim C9: whatever a single command dispatch appends to the outbound
buffer is either nothing, or an answer that starts with the 1-byte opcode of
the command that produced it (the answer opcodes coincide numerically with
the request opcodes) and is at least 2 bytes long — including the status-only
GroupDelete and ClassCSession answers. -/
theorem C9_answerShape (env : Env) (buf : List Nat) (i : Nat) (st : ModuleState) :
    (processOneCmd env buf i st).ans = [] ∨
    ((processOneCmd env buf i st).ans.head? = some (byteAt buf i) ∧
      2 ≤ (processOneCmd env buf i st).ans.length) := by
  simp only [processOneCmd]
  split_ifs with h0 h1 h2 h3 h4
  · right
    rw [h0]
    exact ⟨rfl, by norm_num⟩
  · right
    rw [h1]
    simp only [handleGroupStatus]
    refine ⟨rfl, ?_⟩
    simp only [List.cons_append, List.length_cons]
    omega
  · simp only [handleGroupSetup]
    split_ifs <;>
      first
        | (left; rfl)
        | (right; rw [h2]; exact ⟨rfl, by norm_num⟩)
  · right
    rw [h3]
    simp only [handleGroupDelete]
    exact ⟨rfl, by norm_num⟩
  · simp only [handleClassCSession]
    split_ifs <;> right <;> rw [h4] <;> exact ⟨rfl, by norm_num⟩
  · left
    rfl

/-! ### Claim C10 -/

/-- Claim C10: a ClassCSession command stores the decoded session time (with
the Unix-to-GPS offset added), timeout exponent, scaled rx frequency and
datarate into the session record of slot `id &&& 3`, and the MAC RxParams
call receives exactly the stored rx-parameters; when that call fails the
stored values are kept (no rollback) and only the status byte is answered. -/
theorem C10_storeKeptOnFailure (env : Env) (buf : List Nat) (i : Nat)
    (st : ModuleState) (hop : byteAt buf i = 0x04)
    (hfail : ∀ g p, (env.SetupRxParams g p).1 = false) :
    (processOneCmd env buf i st).state.McSessionData.get (classCId buf i) =
      { st.McSessionData.get (classCId buf i) with
          SessionTime := classCSessionTime buf i
          SessionTimeout := classCTimeout buf i
          RxParams := classCRxParams buf i } ∧
    (processOneCmd env buf i st).calls =
      [McCall.setupRxParams (classCId buf i) (classCRxParams buf i)] := by
  have hdisp : processOneCmd env buf i st = handleClassCSession env buf i st := by
    simp [processOneCmd, hop]
  rw [hdisp]
  simp only [handleClassCSession, hfail, if_false, Bool.false_eq_true]
  exact ⟨McSessionTable.get_set_self _ _ _ (classCId_lt_four buf i), trivial⟩

/-- Environment whose RxParams configuration always fails with status 9. -/
def envFail : Env :=
  { MulticastChannelList := fun k => ⟨k, 0⟩
    McChannelSetupOk := fun _ => true
    McChannelDeleteOk := fun _ => true
    SetupRxParams := fun _ _ => (false, 9)
    SysTimeSeconds := 0 }

/-- A ClassCSession command for group 2: session time bytes 1,2,3,4, timeout
byte 0x2A, frequency bytes 0x10,0x20,0x30, datarate 6. -/
def bufCC : List Nat := [0x04, 0x02, 1, 2, 3, 4, 0x2A, 0x10, 0x20, 0x30, 0x06]

/-- Witness for `C10_storeKeptOnFailure` at a concrete failing environment. -/
theorem C10_witness :
    (byteAt bufCC 0 = 0x04 ∧ (∀ g p, (envFail.SetupRxParams g p).1 = false)) ∧
    ((processOneCmd envFail bufCC 0 initialState).state.McSessionData.get (classCId bufCC 0) =
      { initialState.McSessionData.get (classCId bufCC 0) with
          SessionTime := classCSessionTime bufCC 0
          SessionTimeout := classCTimeout bufCC 0
          RxParams := classCRxParams bufCC 0 } ∧
    (processOneCmd envFail bufCC 0 initialState).calls =
      [McCall.setupRxParams (classCId bufCC 0) (classCRxParams bufCC 0)]) := by
  refine ⟨⟨by decide, fun g p => rfl⟩, ?_⟩
  exact C10_storeKeptOnFailure envFail bufCC 0 initialState (by decide) (fun g p => rfl)

/-! ### Claim C5 -/

/-- Claim C5: a ClassCSession command whose MAC RxParams configuration
succeeds but whose computed time-to-start is non-positive answers with the
opcode byte followed by a single status byte that has bit 0x10 OR-ed in, and
the session start timer is left untouched (not armed). -/
theorem C5_pastStart (env : Env) (buf : List Nat) (i : Nat) (st : ModuleState)
    (s : Nat) (hop : byteAt buf i = 0x04)
    (hok : ∀ g p, env.SetupRxParams g p = (true, s))
    (hpast : classCTimeToStart env buf i ≤ 0) :
    (processOneCmd env buf i st).ans = [0x04, (s % 256) ||| 0x10] ∧
    ((s % 256) ||| 0x10) &&& 0x10 = 0x10 ∧
    (processOneCmd env buf i st).state.SessionStartTimer = st.SessionStartTimer := by
  have hdisp : processOneCmd env buf i st = handleClassCSession env buf i st := by
    simp [processOneCmd, hop]
  have hnot : ¬ (0 < classCTimeToStart env buf i) := by omega
  rw [hdisp]
  simp only [handleClassCSession, hok, if_true, hnot, if_false]
  exact ⟨trivial, or_and_absorb (s % 256) 0x10, trivial⟩

/-- Environment for the elapsed-start scenario: RxParams succeeds with status
3, and the current GPS time is 100 seconds past the stored session time that
`bufPast` encodes. -/
def envPast : Env :=
  { MulticastChannelList := fun k => ⟨k, 0⟩
    McChannelSetupOk := fun _ => true
    McChannelDeleteOk := fun _ => true
    SetupRxParams := fun _ _ => (true, 3)
    SysTimeSeconds := 315964900 }

/-- ClassCSession command for group 2 with session time bytes 0 (stored GPS
time = the epoch offset), timeout byte 7, frequency byte 1, datarate 2. -/
def bufPast : List Nat := [0x04, 0x02, 0, 0, 0, 0, 0x07, 0x01, 0, 0, 0x02]

/-- Witness for `C5_pastStart`: time-to-start is -100 at this input. -/
theorem C5_witness :
    (byteAt bufPast 0 = 0x04 ∧ (∀ g p, envPast.SetupRxParams g p = (true, 3)) ∧
      classCTimeToStart envPast bufPast 0 ≤ 0) ∧
    ((processOneCmd envPast bufPast 0 initialState).ans = [0x04, (3 % 256) ||| 0x10] ∧
    ((3 % 256) ||| 0x10) &&& 0x10 = 0x10 ∧
    (processOneCmd envPast bufPast 0 initialState).state.SessionStartTimer =
      initialState.SessionStartTimer) := by
  refine ⟨⟨by decide, fun g p => rfl, by decide⟩, ?_⟩
  exact C5_pastStart envPast bufPast 0 initialState 3 (by decide) (fun g p => rfl)
    (by decide)

/-! ### Claim C2 -/

/-- Claim C2: for a ClassCSession command where the MAC RxParams
configuration succeeds, the current GPS time is `T`, and the decoded Unix
session time equals `T - gpsOffset + 50` (stated additively: decoded time
plus the offset equals `T + 50`), the module arms the session start timer for
50 seconds (50000 ms) and appends the answer opcode, the status byte, and the
3-byte little-endian time-to-start `[50, 0, 0]`. -/
theorem C2_futureStart (env : Env) (buf : List Nat) (i : Nat) (st : ModuleState)
    (s T : Nat) (hop : byteAt buf i = 0x04)
    (hok : ∀ g p, env.SetupRxParams g p = (true, s))
    (hnow : env.SysTimeSeconds = T)
    (hlt : T + 50 < 4294967296)
    (ht : decodeU32LE buf (i+2) + UNIX_GPS_EPOCH_OFFSET = T + 50) :
    (processOneCmd env buf i st).ans = [0x04, s % 256, 50, 0, 0] ∧
    (processOneCmd env buf i st).state.SessionStartTimer = ⟨50 * 1000, true⟩ := by
  have hdisp : processOneCmd env buf i st = handleClassCSession env buf i st := by
    simp [processOneCmd, hop]
  have hsess : classCSessionTime buf i = T + 50 := by
    unfold classCSessionTime
    rw [ht]
    omega
  have htts : classCTimeToStart env buf i = 50 := by
    unfold classCTimeToStart toInt32
    rw [hsess, hnow]
    have h1 : (T + 50 + 4294967296 - T % 4294967296) % 4294967296 = 50 := by omega
    rw [h1]
    norm_num
  have hpos : 0 < classCTimeToStart env buf i := by
    rw [htts]
    norm_num
  rw [hdisp]
  simp only [handleClassCSession, hok, if_true, hpos, htts]
  simp [Int.toNat_ofNat]
  decide

/-- Environment for the future-start scenario: RxParams succeeds with status
7 and the current GPS time is exactly the epoch offset. -/
def envFut : Env :=
  { MulticastChannelList := fun k => ⟨k, 0⟩
    McChannelSetupOk := fun _ => true
    McChannelDeleteOk := fun _ => true
    SetupRxParams := fun _ _ => (true, 7)
    SysTimeSeconds := 315964800 }

/-- ClassCSession command for group 0 whose decoded Unix session time is 50,
i.e. 50 seconds after `envFut`'s current time once the offset is added. -/
def bufFut : List Nat := [0x04, 0x00, 50, 0, 0, 0, 0x05, 0x01, 0x00, 0x00, 0x03]

/-- Witness for `C2_futureStart` at the concrete future-start scenario. -/
theorem C2_witness :
    (byteAt bufFut 0 = 0x04 ∧ (∀ g p, envFut.SetupRxParams g p = (true, 7)) ∧
      envFut.SysTimeSeconds = 315964800 ∧ 315964800 + 50 < 4294967296 ∧
      decodeU32LE bufFut 2 + UNIX_GPS_EPOCH_OFFSET = 315964800 + 50) ∧
    ((processOneCmd envFut bufFut 0 initialState).ans = [0x04, 7 % 256, 50, 0, 0] ∧
     (processOneCmd envFut bufFut 0 initialState).state.SessionStartTimer =
       ⟨50 * 1000, true⟩) := by
  refine ⟨⟨by decide, fun g p => rfl, rfl, by decide, by decide⟩, ?_⟩
  exact C2_futureStart envFut bufFut 0 initialState 7 315964800 (by decide)
    (fun g p => rfl) rfl (by decide) (by decide)

/-! ### Claim C4 -/

/-- Claim C4 is false at a concrete input: a GroupSetup command for id 0 with
a decoded address of 0 whose MAC configuration succeeds leaves
`isConfigured(0)` false (0 is the "unconfigured" sentinel), even though every
stored field equals the decoded request field. -/
theorem C4_counterexample :
    (∀ p, env7.McChannelSetupOk p = true) ∧
    ¬ isConfigured (processOneCmd env7 ([0x02, 0x00] ++ List.replicate 28 0) 0
        initialState).state 0 := by
  refine ⟨fun p => rfl, ?_⟩
  unfold isConfigured
  decide

/-- Claim C4 amended: for every GroupSetup command with `id < 4` whose MAC
configuration succeeds, the stored id header, address, 16-byte key and
frame-count bounds in slot `id` always equal the decoded request fields, and
`isConfigured(id)` holds afterwards exactly when the decoded address is
non-zero (0 being the unconfigured sentinel). -/
theorem C4_amended (env : Env) (buf : List Nat) (i : Nat) (st : ModuleState)
    (hop : byteAt buf i = 0x02) (hid : byteAt buf (i+1) < 4)
    (_hmac : ∀ p, env.McChannelSetupOk p = true) :
    ((processOneCmd env buf i st).state.McSessionData.get (byteAt buf (i+1))).McGroupData =
      { IdHeaderValue := byteAt buf (i+1)
        McAddr := groupSetupAddr buf i
        McKeyEncrypted := groupSetupKey buf i
        McFCountMin := groupSetupFCountMin buf i
        McFCountMax := groupSetupFCountMax buf i } ∧
    (isConfigured (processOneCmd env buf i st).state (byteAt buf (i+1)) ↔
      groupSetupAddr buf i ≠ 0) := by
  have hdisp : processOneCmd env buf i st = handleGroupSetup env buf i st := by
    simp [processOneCmd, hop]
  have hnle : ¬ (4 ≤ byteAt buf (i+1)) := by omega
  have hstate : (processOneCmd env buf i st).state.McSessionData.get (byteAt buf (i+1)) =
      { st.McSessionData.get (byteAt buf (i+1)) with
          McGroupData :=
            { IdHeaderValue := byteAt buf (i+1)
              McAddr := groupSetupAddr buf i
              McKeyEncrypted := groupSetupKey buf i
              McFCountMin := groupSetupFCountMin buf i
              McFCountMax := groupSetupFCountMax buf i } } := by
    rw [hdisp]
    simp only [handleGroupSetup, hnle, if_false]
    exact McSessionTable.get_set_self _ _ _ hid
  refine ⟨?_, ?_⟩
  · rw [hstate]
  · unfold isConfigured
    rw [hstate]

/-- A complete GroupSetup command for group 1: address bytes 0x44,0x33,0x22,
0x11, key bytes 1..16, frameCountMin 1, frameCountMax 10. -/
def bufC4 : List Nat :=
  [0x02, 0x01, 0x44, 0x33, 0x22, 0x11,
   1, 2, 3, 4, 5, 6, 7, 8, 9, 10, 11, 12, 13, 14, 15, 16,
   0x01, 0, 0, 0, 0x0A, 0, 0, 0]

/-- Witness for `C4_amended` at the concrete GroupSetup command `bufC4`. -/
theorem C4_amended_witness :
    (byteAt bufC4 0 = 0x02 ∧ byteAt bufC4 1 < 4 ∧
      (∀ p, env7.McChannelSetupOk p = true)) ∧
    (((processOneCmd env7 bufC4 0 initialState).state.McSessionData.get
        (byteAt bufC4 1)).McGroupData =
      { IdHeaderValue := byteAt bufC4 1
        McAddr := groupSetupAddr bufC4 0
        McKeyEncrypted := groupSetupKey bufC4 0
        McFCountMin := groupSetupFCountMin bufC4 0
        McFCountMax := groupSetupFCountMax bufC4 0 } ∧
     (isConfigured (processOneCmd env7 bufC4 0 initialState).state (byteAt bufC4 1) ↔
       groupSetupAddr bufC4 0 ≠ 0)) := by
  refine ⟨⟨by decide, by decide, fun p => rfl⟩, ?_⟩
  exact C4_amended env7 bufC4 0 initialState (by decide) (by decide) (fun p => rfl)
